import Mathlib

/-!
Verification development for the TraceLens repository.

Shallow embedding of the client-side consent gate
(components/consent/ConsentManagement), the analysis polling hook
(frontend/lib/useAnalysis.ts), the dashboard URL validation
(components/dashboard/AnalysisDashboard), and the TTL maintenance
functions of database/schema.sql.  Component state is modelled as
explicit records, event handlers as state transition functions, and
the browser timers as an explicit set of live interval identifiers
plus a pending flag for the one-shot initial status check.
-/

namespace TraceLens

/-! Consent gate: components/consent/ConsentManagement.tsx.  The component
holds a list of consent steps, a current step index, and reports completion
through the onConsentComplete callback; we count callback invocations in
the field completeFired and record the backend writes in requests. -/

structure ConsentStep where
  type : String
  title : String
  granted : Bool
  required : Bool
deriving DecidableEq

/-- The five consent steps of the useState initialiser, in source order. -/
def initialConsentSteps : List ConsentStep :=
  [ { type := "data_collection", title := "Data Collection",
      granted := false, required := true },
    { type := "data_processing", title := "Data Processing",
      granted := false, required := true },
    { type := "analysis_inference", title := "Analysis & Inference",
      granted := false, required := true },
    { type := "data_retention", title := "Temporary Data Retention",
      granted := false, required := false },
    { type := "result_storage", title := "Result Storage",
      granted := false, required := false } ]

/-- Outcome of the consentAPI.processConsentStep call: the request threw,
resolved with success false, or resolved with success true. -/
inductive WriteOutcome
  | thrown
  | failure
  | success
deriving DecidableEq

structure ConsentState where
  consentSteps : List ConsentStep
  currentStep : Nat
  completeFired : Nat
  requests : List (Nat × Bool)
deriving DecidableEq

def initialConsentState : ConsentState :=
  { consentSteps := initialConsentSteps, currentStep := 0,
    completeFired := 0, requests := [] }

/-- The map in handleConsentChange: prev.map over indices, replacing the
granted flag at stepIndex and keeping every other element. -/
def setGrantedAt : List ConsentStep → Nat → Bool → List ConsentStep
  | [], _, _ => []
  | s :: rest, 0, g => { s with granted := g } :: rest
  | s :: rest, n + 1, g => s :: setGrantedAt rest n g

/-- canProceed: every required step is granted. -/
def canProceed (steps : List ConsentStep) : Bool :=
  (steps.filter fun s => s.required).all fun s => s.granted

/-- The allRequiredGranted check of handleConsentChange, evaluated on the
updated step list: required steps must satisfy
granted or, with JavaScript precedence, (type equal to the acted step
and the action was a grant). -/
def fireCondition (steps : List ConsentStep) (t : String) (g : Bool) : Bool :=
  (steps.filter fun s => s.required).all fun s => s.granted || (s.type == t && g)

def dummyStep : ConsentStep :=
  { type := "", title := "", granted := false, required := false }

/-- handleConsentChange(stepIndex, granted): the backend write is issued
first; only a response with success true updates the step list, advances
currentStep, and, when the allRequiredGranted check passes on the updated
list, invokes onConsentComplete.  A thrown request or success false leaves
the component state untouched. -/
def handleConsentChange (st : ConsentState) (stepIndex : Nat) (granted : Bool)
    (outcome : WriteOutcome) : ConsentState :=
  let st1 : ConsentState := { st with requests := st.requests ++ [(stepIndex, granted)] }
  match outcome with
  | .thrown => st1
  | .failure => st1
  | .success =>
    let stepType := (st.consentSteps.getD stepIndex dummyStep).type
    let steps := setGrantedAt st.consentSteps stepIndex granted
    let current :=
      if granted && stepIndex == st.currentStep then
        min (st.currentStep + 1) (st.consentSteps.length - 1)
      else st.currentStep
    { st1 with
      consentSteps := steps,
      currentStep := current,
      completeFired := st1.completeFired + (if fireCondition steps stepType granted then 1 else 0) }

structure ConsentAction where
  stepIndex : Nat
  granted : Bool
  outcome : WriteOutcome
deriving DecidableEq

def runConsent (st : ConsentState) (acts : List ConsentAction) : ConsentState :=
  acts.foldl (fun s a => handleConsentChange s a.stepIndex a.granted a.outcome) st

/-- Sequence refuting the fires-exactly-once reading: grant the three
required items, then grant the optional data retention item. -/
def grantRequiredActs : List ConsentAction :=
  [ { stepIndex := 0, granted := true, outcome := .success },
    { stepIndex := 1, granted := true, outcome := .success },
    { stepIndex := 2, granted := true, outcome := .success } ]

def grantOptionalAct : ConsentAction :=
  { stepIndex := 3, granted := true, outcome := .success }

/-! Analysis polling hook: frontend/lib/useAnalysis.ts.  The hook keeps the
current session, the history, the interval handle pollingIntervalRef and
the attempt counter maxPollAttemptsRef.  Timers are modelled explicitly:
liveIntervals is the list of installed and not yet cleared setInterval
identifiers, and initialTimeoutPending records the one-shot
setTimeout(poll, 2000) scheduled by startPolling, which no code path
clears. -/

inductive JobStatus
  | pending
  | processing
  | completed
  | failed
deriving DecidableEq

/-- Payload of a resolved GET status response. -/
structure StatusResponse where
  success : Bool
  status : JobStatus
  progress : Nat
  error : Option String
deriving DecidableEq

/-- One execution of the poll closure: the status request either resolves
with a payload (resultsOk tells whether the follow-up results fetch on a
completed status succeeds) or throws. -/
inductive PollEvent
  | response (r : StatusResponse) (resultsOk : Bool)
  | thrown
deriving DecidableEq

structure Session where
  session_id : String
  status : JobStatus
  progress : Nat
  error : Option String
  hasResults : Bool
deriving DecidableEq

inductive ApiReq
  | startReq (url : String)
  | statusReq (sid : String)
  | resultsReq (sid : String)
  | deleteReq (sid : String)
deriving DecidableEq

structure HookState where
  currentSession : Option Session
  analysisHistory : List Session
  pollingInterval : Option Nat
  liveIntervals : List Nat
  nextTimerId : Nat
  maxPollAttempts : Nat
  initialTimeoutPending : Bool
  pollSid : String
  isPolling : Bool
  errorMsg : Option String
  requests : List ApiReq
deriving DecidableEq

def initHookState : HookState :=
  { currentSession := none, analysisHistory := [], pollingInterval := none,
    liveIntervals := [], nextTimerId := 0, maxPollAttempts := 0,
    initialTimeoutPending := false, pollSid := "", isPolling := false,
    errorMsg := none, requests := [] }

/-- stopPolling: clearInterval on the stored handle and null it out.  The
one-shot initial timeout is not touched, mirroring the source. -/
def stopPolling (st : HookState) : HookState :=
  { st with
    isPolling := false,
    liveIntervals :=
      match st.pollingInterval with
      | some id => st.liveIntervals.erase id
      | none => st.liveIntervals,
    pollingInterval := none }

/-- startPolling(sessionId): reset the attempt counter, clear any existing
interval, schedule the one-shot initial check, and install a fresh
interval with a new timer identifier. -/
def startPolling (sid : String) (st : HookState) : HookState :=
  let cleared :=
    match st.pollingInterval with
    | some id => st.liveIntervals.erase id
    | none => st.liveIntervals
  { st with
    isPolling := true,
    maxPollAttempts := 0,
    pollSid := sid,
    initialTimeoutPending := true,
    liveIntervals := cleared ++ [st.nextTimerId],
    pollingInterval := some st.nextTimerId,
    nextTimerId := st.nextTimerId + 1 }

/-- JavaScript a or-else b on an optional string: none and the empty
string both fall through to the default. -/
def jsOr (o : Option String) (d : String) : String :=
  match o with
  | none => d
  | some s => if s = "" then d else s

/-- One run of the poll closure.  The attempt counter is incremented and a
status request issued first; then the branches of the source: success with
completed fetches results and stops, success with failed surfaces the
payload error and stops, success with a non-terminal status stops with the
timeout message once the counter reaches 240, an unsuccessful response or
a thrown request stops with its own message once the counter reaches 5. -/
def poll (sid : String) (st : HookState) (ev : PollEvent) : HookState :=
  let st1 : HookState :=
    { st with maxPollAttempts := st.maxPollAttempts + 1,
              requests := st.requests ++ [.statusReq sid] }
  match ev with
  | .thrown =>
    if st1.maxPollAttempts ≥ 5 then
      stopPolling { st1 with errorMsg := some "Connection error during analysis" }
    else st1
  | .response r resultsOk =>
    if r.success then
      let s : Session :=
        { session_id := sid, status := r.status, progress := r.progress,
          error := none, hasResults := false }
      let st2 : HookState := { st1 with currentSession := some s }
      match r.status with
      | .completed =>
        let st3 : HookState := { st2 with requests := st2.requests ++ [.resultsReq sid] }
        let st4 : HookState :=
          if resultsOk then { st3 with currentSession := some { s with hasResults := true } }
          else st3
        stopPolling st4
      | .failed =>
        let st3 : HookState :=
          { st2 with errorMsg := some (jsOr r.error "Analysis failed"),
                     currentSession := some { s with error := r.error } }
        stopPolling st3
      | _ =>
        if st2.maxPollAttempts ≥ 240 then
          stopPolling { st2 with errorMsg := some "Analysis timeout. Please try again." }
        else st2
    else
      if st1.maxPollAttempts ≥ 5 then
        stopPolling { st1 with errorMsg := some "Failed to check analysis status" }
      else st1

/-- Externally triggered transitions of the hook: the exported actions plus
the two timer firings.  An interval firing runs poll only while the
interval is installed; the initial one-shot runs poll once whenever it is
still pending, whether or not the interval was cleared. -/
inductive HookEvent
  | startAnalysisEv (url sid : String) (ok : Bool) (errMsg : String)
  | intervalFire (ev : PollEvent)
  | initialFire (ev : PollEvent)
  | startPollingEv (sid : String)
  | stopPollingEv
  | deleteAnalysisEv (sid : String) (ok : Bool)
  | clearSessionEv
deriving DecidableEq

def step (st : HookState) : HookEvent → HookState
  | .startAnalysisEv url sid ok errMsg =>
    let st1 : HookState := { st with requests := st.requests ++ [.startReq url] }
    if ok then
      let s : Session :=
        { session_id := sid, status := .pending, progress := 0,
          error := none, hasResults := false }
      startPolling sid { st1 with currentSession := some s }
    else { st1 with errorMsg := some errMsg }
  | .intervalFire ev =>
    match st.pollingInterval with
    | none => st
    | some _ => poll st.pollSid st ev
  | .initialFire ev =>
    if st.initialTimeoutPending then
      poll st.pollSid { st with initialTimeoutPending := false } ev
    else st
  | .startPollingEv sid => startPolling sid st
  | .stopPollingEv => stopPolling st
  | .deleteAnalysisEv sid ok =>
    let st1 : HookState := { st with requests := st.requests ++ [.deleteReq sid] }
    if ok then
      let st2 : HookState :=
        { st1 with analysisHistory := st1.analysisHistory.filter fun s => s.session_id != sid }
      if st2.currentSession.any fun s => s.session_id == sid then
        stopPolling { st2 with currentSession := none }
      else st2
    else st1
  | .clearSessionEv => stopPolling { st with currentSession := none, errorMsg := none }

def runEvents (st : HookState) (evs : List HookEvent) : HookState :=
  evs.foldl step st

def intervalRun (st : HookState) (evs : List PollEvent) : HookState :=
  evs.foldl (fun s e => step s (.intervalFire e)) st

def isNonTerminalOk : PollEvent → Bool
  | .response r _ => r.success && r.status != .completed && r.status != .failed
  | .thrown => false

def isFailedCheck : PollEvent → Bool
  | .response r _ => !r.success
  | .thrown => true

/-- The timer bookkeeping invariant: the live interval list is exactly the
content of the interval handle, and its identifier is older than the next
fresh one. -/
def IntervalInv (st : HookState) : Prop :=
  match st.pollingInterval with
  | none => st.liveIntervals = []
  | some id => st.liveIntervals = [id] ∧ id < st.nextTimerId

def processingResponse : StatusResponse :=
  { success := true, status := .processing, progress := 25, error := none }

def processingEvent : PollEvent := .response processingResponse true

def timeoutRunEvents : List PollEvent := List.replicate 240 processingEvent

/-- Hook state right after a successful startAnalysis. -/
def afterStart : HookState :=
  step initHookState (.startAnalysisEv "https://example.com/profile" "s1" true "")

def fiveThenThrown : List PollEvent := List.replicate 5 processingEvent ++ [.thrown]

def fourAttemptState : HookState := { afterStart with maxPollAttempts := 4 }

/-- State after startAnalysis followed by a successful delete of the
current session, before the one-shot initial status check has fired. -/
def afterDelete : HookState :=
  runEvents initHookState
    [ .startAnalysisEv "https://example.com/profile" "s1" true "",
      .deleteAnalysisEv "s1" true ]

def afterDeleteThenInitialFire : HookState :=
  step afterDelete (.initialFire processingEvent)

/-! URL validation of the analysis dashboard
(components/dashboard/AnalysisDashboard.tsx). -/

/-- JavaScript line terminators, which the regexp dot does not match. -/
def isLineTerminator (c : Char) : Bool :=
  c == '\n' || c == '\r' || c == Char.ofNat 0x2028 || c == Char.ofNat 0x2029

def charsStartWith : List Char → List Char → Bool
  | [], _ => true
  | _ :: _, [] => false
  | p :: ps, c :: cs => p == c && charsStartWith ps cs

/-- The dot-plus tail of the pattern: at least one character follows, and
the first of them is not a line terminator. -/
def dotPlus : List Char → Bool
  | [] => false
  | c :: _ => !isLineTerminator c

/-- urlPattern.test for the anchored pattern matching http or https, the
colon-slash-slash separator, then dot-plus. -/
def urlPatternTest (s : String) : Bool :=
  let cs := s.data
  (charsStartWith "http://".data cs && dotPlus (cs.drop 7)) ||
  (charsStartWith "https://".data cs && dotPlus (cs.drop 8))

def validateUrl (inputUrl : String) : String :=
  if urlPatternTest inputUrl then ""
  else "Please enter a valid URL starting with http:// or https://"

structure TraceLensUser where
  subscriptionTier : String
  dailyUsage : Nat
deriving DecidableEq

/-- Observable outcome of handleStartAnalysis: the validation message, the
toast shown, and whether startAnalysis (the network path) was invoked. -/
structure StartAttempt where
  urlError : String
  toastError : Option String
  networkCalled : Bool
deriving DecidableEq

def handleStartAnalysis (url : String) (user : Option TraceLensUser) : StartAttempt :=
  let e := validateUrl url
  if e ≠ "" then { urlError := e, toastError := none, networkCalled := false }
  else
    match user with
    | none =>
      { urlError := "", toastError := some "User profile not loaded. Please refresh the page.",
        networkCalled := false }
    | some u =>
      if u.subscriptionTier == "free" && u.dailyUsage ≥ 3 then
        { urlError := "",
          toastError := some "Daily analysis limit reached. Upgrade to continue.",
          networkCalled := false }
      else { urlError := "", toastError := none, networkCalled := true }

/-! Client-side rate limiting: canStartAnalysis of useAnalysis.ts. -/

structure HistoryEntry where
  session_id : String
  created_at : Int
deriving DecidableEq

/-- canStartAnalysis: keep the history entries created after one hour ago
and compare their number with the free-tier maximum. -/
def canStartAnalysis (now : Int) (analysisHistory : List HistoryEntry) : Bool :=
  let recentSessions :=
    analysisHistory.filter fun s => decide (now - 60 * 60 * 1000 < s.created_at)
  decide (recentSessions.length < 3)

/-! TTL maintenance of database/schema.sql on the temporary_analyses
table.  Rows carry the declared columns; time is an abstract integer
instant compared against expires_at. -/

/-- The columns declared by CREATE TABLE temporary_analyses, in order. -/
def temporaryAnalysesColumns : List String :=
  [ "id", "user_id", "target_email", "analysis_results", "privacy_score",
    "privacy_grade", "critical_risks", "collection_metadata",
    "confidence_scores", "status", "created_at", "expires_at",
    "accessed_at", "access_count" ]

structure AnalysisRow where
  id : Nat
  user_id : String
  target_email : String
  analysis_results : String
  privacy_score : Option Int
  privacy_grade : Option String
  critical_risks : List String
  collection_metadata : String
  confidence_scores : String
  status : String
  created_at : Int
  expires_at : Int
  accessed_at : Option Int
  access_count : Nat
deriving DecidableEq

/-- WHERE clause of the DELETE in cleanup_expired_analyses. -/
def isExpiredForCleanup (now : Int) (r : AnalysisRow) : Bool :=
  decide (r.expires_at ≤ now) || r.status == "expired"

/-- cleanup_expired_analyses: delete the rows matching the WHERE clause
and report how many were deleted.  The audit log insert the function also
performs is outside the temporary_analyses table and not modelled. -/
def cleanup_expired_analyses (now : Int) (tbl : List AnalysisRow) :
    List AnalysisRow × Nat :=
  ( tbl.filter fun r => !isExpiredForCleanup now r,
    (tbl.filter fun r => isExpiredForCleanup now r).length )

/-- The SET list of the UPDATE inside mark_expired_analyses. -/
def markSetColumns : List String := ["status", "updated_at"]

/-- mark_expired_analyses.  PostgreSQL refuses an UPDATE whose SET list
names a column the target table does not declare, raising at execution;
when every SET column exists the UPDATE rewrites the rows matched by the
WHERE clause, setting their status, and reports the match count. -/
def mark_expired_analyses (now : Int) (tbl : List AnalysisRow) :
    Except String (List AnalysisRow × Nat) :=
  if markSetColumns.all (fun c => temporaryAnalysesColumns.contains c) then
    .ok
      ( tbl.map fun r =>
          if r.expires_at ≤ now ∧ r.status ≠ "expired" then { r with status := "expired" }
          else r,
        (tbl.filter fun r => decide (r.expires_at ≤ now) && r.status != "expired").length )
  else .error "column updated_at of relation temporary_analyses does not exist"

/-- A row past its expiry instant, still marked completed. -/
def expiredRow : AnalysisRow :=
  { id := 1, user_id := "u1", target_email := "a@example.com",
    analysis_results := "r1", privacy_score := some 5, privacy_grade := some "B",
    critical_risks := [], collection_metadata := "", confidence_scores := "",
    status := "completed", created_at := 0, expires_at := 50,
    accessed_at := none, access_count := 0 }

/-- A row whose expiry instant is still in the future. -/
def freshRow : AnalysisRow := { expiredRow with id := 2, expires_at := 200 }

end TraceLens

deriving instance DecidableEq for Except

namespace TraceLens

/-! Helper lemmas about the consent gate. -/

theorem list_all_congr {α : Type} {l : List α} {p q : α → Bool}
    (h : ∀ x ∈ l, p x = q x) : l.all p = l.all q := by
  induction l with
  | nil => rfl
  | cons a t ih =>
    simp only [List.all_cons]
    rw [h a (by simp), ih fun x hx => h x (by simp [hx])]

theorem getD_mem_of_lt {α : Type} :
    ∀ (l : List α) (i : Nat) (d : α), i < l.length → l.getD i d ∈ l := by
  intro l
  induction l with
  | nil => intro i d h; simp at h
  | cons a t ih =>
    intro i d h
    cases i with
    | zero => simp
    | succ n =>
      have hn : n < t.length := by simpa using h
      simpa using Or.inr (ih n d hn)

theorem setGrantedAt_map_type (l : List ConsentStep) (i : Nat) (g : Bool) :
    (setGrantedAt l i g).map (fun s => s.type) = l.map fun s => s.type := by
  induction l generalizing i with
  | nil => rfl
  | cons a t ih =>
    cases i with
    | zero => simp [setGrantedAt]
    | succ n => simp [setGrantedAt, ih]

/-- In a step list with pairwise distinct types, the only element of the
updated list whose type is the type at the updated index carries the new
granted flag. -/
theorem granted_of_type_eq_setGrantedAt (l : List ConsentStep) (i : Nat) (g : Bool)
    (hi : i < l.length) (hnd : (l.map fun s => s.type).Nodup) :
    ∀ x ∈ setGrantedAt l i g, x.type = (l.getD i dummyStep).type → x.granted = g := by
  induction l generalizing i with
  | nil => simp at hi
  | cons a t ih =>
    have hna : a.type ∉ t.map fun s => s.type := by
      simpa using (List.nodup_cons.mp hnd).1
    have hnt : (t.map fun s => s.type).Nodup := (List.nodup_cons.mp hnd).2
    cases i with
    | zero =>
      intro x hx hty
      rw [List.getD_cons_zero] at hty
      simp only [setGrantedAt] at hx
      rcases List.mem_cons.mp hx with hx | hx
      · rw [hx]
      · exfalso
        apply hna
        have : x.type ∈ t.map fun s => s.type :=
          List.mem_map_of_mem (fun s => s.type) hx
        rwa [hty] at this
    | succ n =>
      have hn : n < t.length := by simpa using hi
      intro x hx hty
      rw [List.getD_cons_succ] at hty
      simp only [setGrantedAt] at hx
      rcases List.mem_cons.mp hx with hx | hx
      · exfalso
        apply hna
        have hmem : t.getD n dummyStep ∈ t := getD_mem_of_lt t n dummyStep hn
        have hmap : (t.getD n dummyStep).type ∈ t.map fun s => s.type :=
          List.mem_map_of_mem (fun s => s.type) hmem
        rw [hx] at hty
        rw [hty]
        exact hmap
      · exact ih n hn hnt x hx hty

/-- The type at a non-updated position differs from the updated type, so
the allRequiredGranted disjunct of handleConsentChange collapses to the
plain granted flag: on a Nodup-typed list the fire condition is exactly
canProceed evaluated on the updated list. -/
theorem fireCondition_eq_canProceed (l : List ConsentStep) (i : Nat) (g : Bool)
    (hi : i < l.length) (hnd : (l.map fun s => s.type).Nodup) :
    fireCondition (setGrantedAt l i g) ((l.getD i dummyStep).type) g
      = canProceed (setGrantedAt l i g) := by
  unfold fireCondition canProceed
  apply list_all_congr
  intro x hx
  have hx' : x ∈ setGrantedAt l i g := (List.mem_filter.mp hx).1
  show (x.granted || (x.type == (l.getD i dummyStep).type && g)) = x.granted
  by_cases hty : x.type = (l.getD i dummyStep).type
  · have hg : x.granted = g := granted_of_type_eq_setGrantedAt l i g hi hnd x hx' hty
    rw [hg, hty]
    simp
  · have hbeq : (x.type == (l.getD i dummyStep).type) = false := by
      simpa using hty
    rw [hbeq]
    simp

/-- Claim C1 (amended): a consent action fires onConsentComplete exactly
when its backend write succeeds and every required item is granted in the
resulting step list.  In particular the gate never fires while a required
item is ungranted, but it fires again on every later successful action
(grant or withdraw, required or optional) taken while all required items
remain granted. -/
theorem consent_gate_fires_iff_all_required_granted
    (st : ConsentState) (i : Nat) (g : Bool) (out : WriteOutcome)
    (hi : i < st.consentSteps.length)
    (hnd : (st.consentSteps.map fun s => s.type).Nodup) :
    (handleConsentChange st i g out).completeFired =
      st.completeFired +
        (if out = .success ∧
            canProceed (handleConsentChange st i g out).consentSteps = true
         then 1 else 0) := by
  cases out with
  | thrown => simp [handleConsentChange]
  | failure => simp [handleConsentChange]
  | success =>
    simp only [handleConsentChange]
    rw [fireCondition_eq_canProceed st.consentSteps i g hi hnd]
    by_cases h : canProceed (setGrantedAt st.consentSteps i g) = true
    · simp [h]
    · simp [h]

/-- Witness for C1 amended: granting the first required item from the
initial state sends a successful write, and since the other required
items are still ungranted the callback does not fire. -/
theorem consent_gate_fires_iff_witness :
    (handleConsentChange initialConsentState 0 true .success).completeFired =
      initialConsentState.completeFired +
        (if WriteOutcome.success = WriteOutcome.success ∧
            canProceed (handleConsentChange initialConsentState 0 true .success).consentSteps
              = true
         then 1 else 0) :=
  consent_gate_fires_iff_all_required_granted initialConsentState 0 true .success
    (by decide) (by decide)

/-- Counterexample for C1 as stated: granting the three required items
fires onConsentComplete once, and a subsequent grant of the optional data
retention item fires it a second time. -/
theorem consent_complete_fires_twice :
    (runConsent initialConsentState grantRequiredActs).completeFired = 1 ∧
    (runConsent initialConsentState (grantRequiredActs ++ [grantOptionalAct])).completeFired
      = 2 := by
  decide

/-- Claim C5: every grant or withdraw action issues exactly one backend
write, and when that write throws or resolves unsuccessfully the granted
flags, the current step and the fire count are all left unchanged. -/
theorem consent_write_failure_leaves_state_unchanged
    (st : ConsentState) (i : Nat) (g : Bool) (out : WriteOutcome)
    (h : out ≠ .success) :
    (∀ out2, (handleConsentChange st i g out2).requests = st.requests ++ [(i, g)]) ∧
    (handleConsentChange st i g out).consentSteps = st.consentSteps ∧
    (handleConsentChange st i g out).currentStep = st.currentStep ∧
    (handleConsentChange st i g out).completeFired = st.completeFired := by
  refine ⟨fun out2 => ?_, ?_⟩
  · cases out2 <;> simp [handleConsentChange]
  · cases out with
    | success => exact absurd rfl h
    | thrown => simp [handleConsentChange]
    | failure => simp [handleConsentChange]

/-- Witness for C5: a thrown write for a grant of the first step leaves
the initial state unchanged apart from the recorded request. -/
theorem consent_write_failure_witness :
    (∀ out2,
      (handleConsentChange initialConsentState 0 true out2).requests =
        initialConsentState.requests ++ [(0, true)]) ∧
    (handleConsentChange initialConsentState 0 true .thrown).consentSteps =
      initialConsentState.consentSteps ∧
    (handleConsentChange initialConsentState 0 true .thrown).currentStep =
      initialConsentState.currentStep ∧
    (handleConsentChange initialConsentState 0 true .thrown).completeFired =
      initialConsentState.completeFired :=
  consent_write_failure_leaves_state_unchanged initialConsentState 0 true .thrown
    (by decide)

/-! Helper lemmas about the polling loop. -/

theorem intervalRun_cons (st : HookState) (e : PollEvent) (t : List PollEvent) :
    intervalRun st (e :: t) = intervalRun (step st (.intervalFire e)) t := rfl

/-- A cleared interval stays cleared: once pollingInterval is null no
further interval firing changes the state, hence no further status
request is issued by the interval. -/
theorem intervalRun_stopped (st : HookState) (h : st.pollingInterval = none) :
    ∀ evs, intervalRun st evs = st := by
  intro evs
  induction evs with
  | nil => rfl
  | cons e t ih =>
    rw [intervalRun_cons]
    have hs : step st (.intervalFire e) = st := by
      simp [step, h]
    rw [hs]
    exact ih

/-- A successful non-terminal poll below the ceiling only bumps the
attempt counter: interval handle, error and live timer list are kept. -/
theorem poll_nonterminal_proj (sid : String) (st : HookState) (e : PollEvent)
    (he : isNonTerminalOk e = true) (hlt : st.maxPollAttempts + 1 < 240) :
    (poll sid st e).pollingInterval = st.pollingInterval ∧
    (poll sid st e).maxPollAttempts = st.maxPollAttempts + 1 ∧
    (poll sid st e).errorMsg = st.errorMsg ∧
    (poll sid st e).liveIntervals = st.liveIntervals := by
  cases e with
  | thrown => simp [isNonTerminalOk] at he
  | response r rOk =>
    simp only [isNonTerminalOk, Bool.and_eq_true, bne_iff_ne, ne_eq] at he
    obtain ⟨⟨hs, hc⟩, hf⟩ := he
    have h240 : ¬ st.maxPollAttempts + 1 ≥ 240 := by omega
    cases hst : r.status with
    | pending => simp [poll, hs, hst, h240]
    | processing => simp [poll, hs, hst, h240]
    | completed => exact absurd hst hc
    | failed => exact absurd hst hf

/-- The successful non-terminal poll that brings the counter to the
ceiling clears the interval and sets the timeout message. -/
theorem poll_nonterminal_timeout (sid : String) (st : HookState) (e : PollEvent)
    (he : isNonTerminalOk e = true) (hge : st.maxPollAttempts + 1 ≥ 240) :
    (poll sid st e).pollingInterval = none ∧
    (poll sid st e).errorMsg = some "Analysis timeout. Please try again." := by
  cases e with
  | thrown => simp [isNonTerminalOk] at he
  | response r rOk =>
    simp only [isNonTerminalOk, Bool.and_eq_true, bne_iff_ne, ne_eq] at he
    obtain ⟨⟨hs, hc⟩, hf⟩ := he
    cases hst : r.status with
    | pending => simp [poll, hs, hst, hge, stopPolling]
    | processing => simp [poll, hs, hst, hge, stopPolling]
    | completed => exact absurd hst hc
    | failed => exact absurd hst hf

/-- Runs of successful non-terminal polls below the ceiling keep the
interval live and accumulate attempts one per event. -/
theorem intervalRun_nonterminal_live (evs : List PollEvent) :
    ∀ (st : HookState) (id : Nat),
      (∀ e ∈ evs, isNonTerminalOk e = true) →
      st.pollingInterval = some id →
      st.maxPollAttempts + evs.length ≤ 239 →
      (intervalRun st evs).pollingInterval = some id ∧
      (intervalRun st evs).maxPollAttempts = st.maxPollAttempts + evs.length ∧
      (intervalRun st evs).errorMsg = st.errorMsg := by
  induction evs with
  | nil =>
    intro st id _ hlive _
    simpa [intervalRun] using hlive
  | cons e t ih =>
    intro st id hall hlive hbound
    rw [intervalRun_cons]
    have hlen : st.maxPollAttempts + (t.length + 1) ≤ 239 := by
      simpa using hbound
    have hstep : step st (.intervalFire e) = poll st.pollSid st e := by
      simp [step, hlive]
    have hproj := poll_nonterminal_proj st.pollSid st e (hall e (by simp)) (by omega)
    rw [hstep]
    have h1 : (poll st.pollSid st e).pollingInterval = some id := by
      rw [hproj.1, hlive]
    have hrec := ih (poll st.pollSid st e) id (fun x hx => hall x (by simp [hx])) h1
      (by rw [hproj.2.1]; omega)
    refine ⟨hrec.1, ?_, ?_⟩
    · rw [hrec.2.1, hproj.2.1]
      simp [Nat.add_assoc, Nat.add_comm 1 t.length]
    · rw [hrec.2.2, hproj.2.2.1]

/-- Claim C3: starting from a freshly installed interval, a run of 240
status responses that are successful but never completed or failed stops
the interval exactly at the ceiling, reports the fixed timeout message
(distinct from the default failure message of the failed branch), and no
interval firing afterwards changes the state. -/
theorem polling_timeout_after_240_attempts
    (evs : List PollEvent) (st : HookState) (id : Nat)
    (hlive : st.pollingInterval = some id)
    (hzero : st.maxPollAttempts = 0)
    (hall : ∀ e ∈ evs, isNonTerminalOk e = true)
    (hlen : evs.length = 240) :
    (intervalRun st evs).pollingInterval = none ∧
    (intervalRun st evs).errorMsg = some "Analysis timeout. Please try again." ∧
    (∀ more, intervalRun (intervalRun st evs) more = intervalRun st evs) ∧
    "Analysis timeout. Please try again." ≠ "Analysis failed" := by
  have hne : evs ≠ [] := by
    intro h
    rw [h] at hlen
    simp at hlen
  have hsplit : evs.dropLast ++ [evs.getLast hne] = evs :=
    List.dropLast_append_getLast hne
  have hlast : evs.getLast hne ∈ evs := List.getLast_mem hne
  have hdlen : evs.dropLast.length = 239 := by
    rw [List.length_dropLast, hlen]
  have hmid := intervalRun_nonterminal_live evs.dropLast st id
    (fun e he => hall e (List.mem_of_mem_dropLast he)) hlive
    (by rw [hzero, hdlen])
  have hrun : intervalRun st evs =
      step (intervalRun st evs.dropLast) (.intervalFire (evs.getLast hne)) := by
    conv_lhs => rw [← hsplit]
    rw [intervalRun, List.foldl_append]
    rfl
  have hatt : (intervalRun st evs.dropLast).maxPollAttempts = 239 := by
    rw [hmid.2.1, hzero, hdlen]
  have hstep : step (intervalRun st evs.dropLast) (.intervalFire (evs.getLast hne)) =
      poll (intervalRun st evs.dropLast).pollSid (intervalRun st evs.dropLast)
        (evs.getLast hne) := by
    simp [step, hmid.1]
  have htim := poll_nonterminal_timeout (intervalRun st evs.dropLast).pollSid
    (intervalRun st evs.dropLast) (evs.getLast hne) (hall _ hlast)
    (by rw [hatt])
  refine ⟨?_, ?_, ?_, by decide⟩
  · rw [hrun, hstep]
    exact htim.1
  · rw [hrun, hstep]
    exact htim.2
  · intro more
    apply intervalRun_stopped
    rw [hrun, hstep]
    exact htim.1

/-- Witness for C3: after startAnalysis, 240 processing responses stop
polling with the timeout message. -/
theorem polling_timeout_witness :
    (intervalRun afterStart timeoutRunEvents).pollingInterval = none ∧
    (intervalRun afterStart timeoutRunEvents).errorMsg =
      some "Analysis timeout. Please try again." ∧
    (∀ more, intervalRun (intervalRun afterStart timeoutRunEvents) more =
      intervalRun afterStart timeoutRunEvents) ∧
    "Analysis timeout. Please try again." ≠ "Analysis failed" :=
  polling_timeout_after_240_attempts timeoutRunEvents afterStart 0
    (by decide) (by decide)
    (fun e he => by
      unfold timeoutRunEvents at he
      rw [List.eq_of_mem_replicate he]
      decide)
    (by rw [timeoutRunEvents, List.length_replicate])

/-- Claim C4: a failed status response terminates polling and the payload
error message is stored verbatim, both as the displayed error and on the
session. -/
theorem failed_status_surfaces_error_verbatim
    (st : HookState) (id : Nat) (e : String) (p : Nat) (rOk : Bool)
    (hlive : st.pollingInterval = some id) (hne : e ≠ "") :
    (step st (.intervalFire (.response
        { success := true, status := .failed, progress := p, error := some e } rOk))).errorMsg
      = some e ∧
    (step st (.intervalFire (.response
        { success := true, status := .failed, progress := p, error := some e } rOk))).pollingInterval
      = none ∧
    (step st (.intervalFire (.response
        { success := true, status := .failed, progress := p, error := some e } rOk))).currentSession
      = some { session_id := st.pollSid, status := .failed, progress := p,
               error := some e, hasResults := false } := by
  simp [step, hlive, poll, jsOr, hne, stopPolling]

/-- Witness for C4 at a concrete failed response. -/
theorem failed_status_witness :
    (step afterStart (.intervalFire (.response
        { success := true, status := .failed, progress := 10,
          error := some "scraper blocked" } true))).errorMsg = some "scraper blocked" ∧
    (step afterStart (.intervalFire (.response
        { success := true, status := .failed, progress := 10,
          error := some "scraper blocked" } true))).pollingInterval = none ∧
    (step afterStart (.intervalFire (.response
        { success := true, status := .failed, progress := 10,
          error := some "scraper blocked" } true))).currentSession
      = some { session_id := afterStart.pollSid, status := .failed, progress := 10,
               error := some "scraper blocked", hasResults := false } :=
  failed_status_surfaces_error_verbatim afterStart 0 "scraper blocked" 10 true
    (by decide) (by decide)

/-- Counterexample for C7 as stated: after five successful polls the very
first failed status check, with zero preceding consecutive failures,
aborts the loop with the connection error. -/
theorem first_failure_after_five_successes_aborts :
    fiveThenThrown.countP isFailedCheck = 1 ∧
    (intervalRun afterStart fiveThenThrown).pollingInterval = none ∧
    (intervalRun afterStart fiveThenThrown).errorMsg =
      some "Connection error during analysis" := by
  decide

/-- Claim C7 (amended): a thrown status check aborts the loop exactly when
the shared attempt counter, which counts successful and failed polls alike
and is never reset by a success, has reached five; below five the failure
only bumps the counter. -/
theorem poll_failure_abort_depends_on_total_attempts
    (st : HookState) (id : Nat) (hlive : st.pollingInterval = some id) :
    (st.maxPollAttempts + 1 ≥ 5 →
      (step st (.intervalFire .thrown)).pollingInterval = none ∧
      (step st (.intervalFire .thrown)).errorMsg =
        some "Connection error during analysis") ∧
    (st.maxPollAttempts + 1 < 5 →
      (step st (.intervalFire .thrown)).pollingInterval = some id ∧
      (step st (.intervalFire .thrown)).errorMsg = st.errorMsg ∧
      (step st (.intervalFire .thrown)).maxPollAttempts = st.maxPollAttempts + 1) := by
  constructor
  · intro h
    simp [step, hlive, poll, stopPolling, h]
  · intro h
    have h5 : ¬ st.maxPollAttempts + 1 ≥ 5 := by omega
    simp [step, hlive, poll, h5]

/-- Witness for C7 amended: at four prior attempts a single thrown check
aborts. -/
theorem poll_failure_abort_witness :
    (step fourAttemptState (.intervalFire .thrown)).pollingInterval = none ∧
    (step fourAttemptState (.intervalFire .thrown)).errorMsg =
      some "Connection error during analysis" :=
  (poll_failure_abort_depends_on_total_attempts fourAttemptState 0 (by decide)).1
    (by decide)

/-! Preservation of the timer bookkeeping invariant. -/

theorem interval_inv_congr (st st' : HookState)
    (h1 : st'.pollingInterval = st.pollingInterval)
    (h2 : st'.liveIntervals = st.liveIntervals)
    (h3 : st'.nextTimerId = st.nextTimerId)
    (h : IntervalInv st) : IntervalInv st' := by
  unfold IntervalInv at *
  rw [h1, h2, h3]
  exact h

theorem interval_inv_stopPolling (st : HookState) (h : IntervalInv st) :
    IntervalInv (stopPolling st) := by
  unfold IntervalInv stopPolling at *
  cases hpi : st.pollingInterval with
  | none =>
    rw [hpi] at h
    simp [hpi, h]
  | some id =>
    rw [hpi] at h
    simp [hpi, h.1, List.erase_cons_head]

theorem interval_inv_startPolling (sid : String) (st : HookState) (h : IntervalInv st) :
    IntervalInv (startPolling sid st) := by
  unfold IntervalInv startPolling at *
  cases hpi : st.pollingInterval with
  | none =>
    rw [hpi] at h
    simp [hpi, h]
  | some id =>
    rw [hpi] at h
    simp [hpi, h.1, List.erase_cons_head]

theorem interval_inv_poll (sid : String) (st : HookState) (e : PollEvent)
    (h : IntervalInv st) : IntervalInv (poll sid st e) := by
  cases e with
  | thrown =>
    dsimp only [poll]
    split
    · exact interval_inv_stopPolling _ (interval_inv_congr st _ rfl rfl rfl h)
    · exact interval_inv_congr st _ rfl rfl rfl h
  | response r rOk =>
    dsimp only [poll]
    split
    · split
      · split
        · exact interval_inv_stopPolling _ (interval_inv_congr st _ rfl rfl rfl h)
        · exact interval_inv_stopPolling _ (interval_inv_congr st _ rfl rfl rfl h)
      · exact interval_inv_stopPolling _ (interval_inv_congr st _ rfl rfl rfl h)
      · split
        · exact interval_inv_stopPolling _ (interval_inv_congr st _ rfl rfl rfl h)
        · exact interval_inv_congr st _ rfl rfl rfl h
    · split
      · exact interval_inv_stopPolling _ (interval_inv_congr st _ rfl rfl rfl h)
      · exact interval_inv_congr st _ rfl rfl rfl h

theorem interval_inv_step (st : HookState) (ev : HookEvent) (h : IntervalInv st) :
    IntervalInv (step st ev) := by
  cases ev with
  | startAnalysisEv url sid ok errMsg =>
    dsimp only [step]
    split
    · exact interval_inv_startPolling _ _ (interval_inv_congr st _ rfl rfl rfl h)
    · exact interval_inv_congr st _ rfl rfl rfl h
  | intervalFire e =>
    dsimp only [step]
    split
    · exact h
    · exact interval_inv_poll _ _ _ h
  | initialFire e =>
    dsimp only [step]
    split
    · exact interval_inv_poll _ _ _ (interval_inv_congr st _ rfl rfl rfl h)
    · exact h
  | startPollingEv sid => exact interval_inv_startPolling _ _ h
  | stopPollingEv => exact interval_inv_stopPolling _ h
  | deleteAnalysisEv sid ok =>
    dsimp only [step]
    split
    · split
      · exact interval_inv_stopPolling _ (interval_inv_congr st _ rfl rfl rfl h)
      · exact interval_inv_congr st _ rfl rfl rfl h
    · exact interval_inv_congr st _ rfl rfl rfl h
  | clearSessionEv =>
    exact interval_inv_stopPolling _ (interval_inv_congr st _ rfl rfl rfl h)

theorem interval_inv_runEvents (evs : List HookEvent) :
    ∀ st : HookState, IntervalInv st → IntervalInv (runEvents st evs) := by
  induction evs with
  | nil => intro st h; exact h
  | cons e t ih =>
    intro st h
    exact ih _ (interval_inv_step st e h)

/-- Claim C10: through every sequence of hook actions and timer firings
at most one interval is live, and installing a fresh interval through
startPolling resets the attempt counter, so attempts of an earlier
session never count toward a later ceiling. -/
theorem at_most_one_live_interval (evs : List HookEvent) :
    (runEvents initHookState evs).liveIntervals.length ≤ 1 ∧
    ∀ sid, (runEvents initHookState (evs ++ [.startPollingEv sid])).maxPollAttempts = 0 := by
  constructor
  · have h := interval_inv_runEvents evs initHookState (by simp [IntervalInv, initHookState])
    unfold IntervalInv at h
    cases hpi : (runEvents initHookState evs).pollingInterval with
    | none =>
      rw [hpi] at h
      rw [h]
      simp
    | some id =>
      rw [hpi] at h
      rw [h.1]
      simp
  · intro sid
    unfold runEvents
    rw [List.foldl_append]
    show (step (runEvents initHookState evs) (.startPollingEv sid)).maxPollAttempts = 0
    simp [step, startPolling]

/-- Claim C2 (code bug): a successful delete of the current session does
clear the interval, null the session and issue only the delete request,
but the one-shot initial status timer scheduled by startPolling is still
pending; when it fires it issues one more status request after the
deletion and repopulates the displayed session. -/
theorem delete_leaves_initial_timer_dangling :
    afterDelete.pollingInterval = none ∧
    afterDelete.currentSession = none ∧
    afterDelete.requests =
      [.startReq "https://example.com/profile", .deleteReq "s1"] ∧
    afterDelete.initialTimeoutPending = true ∧
    afterDeleteThenInitialFire.requests = afterDelete.requests ++ [.statusReq "s1"] ∧
    afterDeleteThenInitialFire.currentSession ≠ none := by
  decide

/-! URL validation and rate limiting. -/

/-- Claim C6: an empty or pattern-rejected URL makes handleStartAnalysis
set the validation message and return before the network path is taken,
whatever the loaded user profile is. -/
theorem invalid_url_blocks_submission (url : String) (user : Option TraceLensUser)
    (h : url = "" ∨ urlPatternTest url = false) :
    (handleStartAnalysis url user).networkCalled = false ∧
    (handleStartAnalysis url user).urlError =
      "Please enter a valid URL starting with http:// or https://" := by
  have hfail : urlPatternTest url = false := by
    rcases h with h | h
    · rw [h]
      decide
    · exact h
  have hv : validateUrl url =
      "Please enter a valid URL starting with http:// or https://" := by
    unfold validateUrl
    rw [hfail]
    simp
  have hnm : ("Please enter a valid URL starting with http:// or https://" : String) ≠ "" := by
    decide
  unfold handleStartAnalysis
  rw [hv]
  simp [hnm]

/-- Witness for C6: a URL without scheme is blocked even for a loaded
free-tier user with remaining quota. -/
theorem invalid_url_blocks_witness :
    (handleStartAnalysis "example.com"
        (some { subscriptionTier := "free", dailyUsage := 0 })).networkCalled = false ∧
    (handleStartAnalysis "example.com"
        (some { subscriptionTier := "free", dailyUsage := 0 })).urlError =
      "Please enter a valid URL starting with http:// or https://" :=
  invalid_url_blocks_submission "example.com"
    (some { subscriptionTier := "free", dailyUsage := 0 }) (Or.inr (by decide))

/-- Claim C9: canStartAnalysis is a pure function of the clock and the
in-memory history, true exactly when strictly fewer than three entries
were created within the last sixty minutes. -/
theorem canStartAnalysis_iff (now : Int) (history : List HistoryEntry) :
    canStartAnalysis now history = true ↔
      history.countP (fun s => decide (now - s.created_at < 3600000)) < 3 := by
  have hfe : (history.filter fun s => decide (now - 60 * 60 * 1000 < s.created_at))
      = history.filter fun s => decide (now - s.created_at < 3600000) := by
    apply List.filter_congr
    intro x _
    simp only [decide_eq_decide]
    omega
  show decide ((history.filter fun s =>
      decide (now - 60 * 60 * 1000 < s.created_at)).length < 3) = true ↔ _
  rw [decide_eq_true_eq, List.countP_eq_length_filter, hfe]

/-! TTL maintenance. -/

/-- Claim C8 (code bug): on a concrete table with one expired and one
fresh row, cleanup_expired_analyses deletes exactly the expired row and a
second run at the same instant deletes nothing, as claimed; but the SET
list of mark_expired_analyses names updated_at, a column the CREATE TABLE
for temporary_analyses does not declare, so the soft-expire function
errors instead of marking the expired row. -/
theorem mark_expired_analyses_references_missing_column :
    ("updated_at" ∈ markSetColumns ∧ "updated_at" ∉ temporaryAnalysesColumns) ∧
    mark_expired_analyses 100 [expiredRow, freshRow] =
      .error "column updated_at of relation temporary_analyses does not exist" ∧
    cleanup_expired_analyses 100 [expiredRow, freshRow] = ([freshRow], 1) ∧
    cleanup_expired_analyses 100 (cleanup_expired_analyses 100 [expiredRow, freshRow]).1 =
      ([freshRow], 0) := by
  decide

end TraceLens
